import Mathlib

/-!
Verification of the audio-resolution pipeline of the `Jarvis4everyone/alexa`
Alexa skill, a shallow embedding of `src/lambda/lambda_function.py` and
`src/lambda/edgetts.py`.

Python exceptions are modelled by an `Except` result whose error carries the
Python exception class and message; the external world (filesystem, S3,
the EdgeTTS engine, wall clock) is modelled by explicit environment records,
and each source function becomes a total Lean function of its inputs and
environment.  Effects the claims talk about (scratch files, engine calls,
upload and inline attempts) are recorded in trace records threaded through
the embedding.
-/

namespace Alexa

/-- Python exception values as raised by the sources: `ValueError(msg)` or a
generic `Exception(msg)`.  `str(e)` returns the message. -/
inductive PyExc where
  | valueError (msg : String)
  | exc (msg : String)
  deriving DecidableEq, Repr

/-- Python `str(e)`: the message carried by the exception. -/
def pyStr : PyExc → String
  | .valueError msg => msg
  | .exc msg => msg

/-- ASCII whitespace as recognised by Python `str.strip()` (space, tab,
newline, carriage return, vertical tab, form feed). -/
def pyIsSpace (ch : Char) : Bool :=
  ch == ' ' || ch == '\t' || ch == '\n' || ch == '\r' ||
    ch == Char.ofNat 11 || ch == Char.ofNat 12

/-- Python `str.strip()`: remove leading and trailing whitespace. -/
def pyStrip (s : String) : String :=
  String.mk (((s.data.dropWhile pyIsSpace).reverse.dropWhile pyIsSpace).reverse)

/-- Python slicing `s[:n]` on a string. -/
def pySlice (s : String) (n : Nat) : String :=
  String.mk (s.data.take n)

/-! ## Base64 (model of Python `base64.b64encode`, RFC 4648) -/

/-- The standard base64 alphabet, index `i` holding the digit for sextet `i`. -/
def b64Alphabet : List Char :=
  ['A','B','C','D','E','F','G','H','I','J','K','L','M','N','O','P',
   'Q','R','S','T','U','V','W','X','Y','Z',
   'a','b','c','d','e','f','g','h','i','j','k','l','m','n','o','p',
   'q','r','s','t','u','v','w','x','y','z',
   '0','1','2','3','4','5','6','7','8','9','+','/']

/-- Digit character for a sextet value. -/
def sextetChar (s : Nat) : Char :=
  b64Alphabet.getD s 'A'

/-- Sextet value of a base64 digit character. -/
def charSextet (c : Char) : Nat :=
  b64Alphabet.indexOf c

/-- Base64-encode a byte list, three bytes to four digits, padding the final
partial group with `=`. -/
def b64EncodeChunks : List Nat → List Char
  | b1 :: b2 :: b3 :: rest =>
      sextetChar (b1 / 4) :: sextetChar ((b1 % 4) * 16 + b2 / 16) ::
        sextetChar ((b2 % 16) * 4 + b3 / 64) :: sextetChar (b3 % 64) ::
        b64EncodeChunks rest
  | [b1, b2] =>
      [sextetChar (b1 / 4), sextetChar ((b1 % 4) * 16 + b2 / 16),
       sextetChar ((b2 % 16) * 4), '=']
  | [b1] =>
      [sextetChar (b1 / 4), sextetChar ((b1 % 4) * 16), '=', '=']
  | [] => []

/-- Base64-decode four-digit groups back to bytes, honouring `=` padding;
`none` on a malformed length. -/
def b64DecodeChunks : List Char → Option (List Nat)
  | [] => some []
  | c1 :: c2 :: c3 :: c4 :: rest =>
      let s1 := charSextet c1
      let s2 := charSextet c2
      if c3 = '=' ∧ c4 = '=' ∧ rest = [] then
        some [s1 * 4 + s2 / 16]
      else if c4 = '=' ∧ rest = [] then
        let s3 := charSextet c3
        some [s1 * 4 + s2 / 16, (s2 % 16) * 16 + s3 / 4]
      else
        let s3 := charSextet c3
        let s4 := charSextet c4
        match b64DecodeChunks rest with
        | some tail => some ((s1 * 4 + s2 / 16) :: ((s2 % 16) * 16 + s3 / 4) ::
            ((s3 % 4) * 64 + s4) :: tail)
        | none => none
  | _ => none

/-- Model of `base64.b64encode(data).decode("utf-8")`. -/
def b64encode (data : List Nat) : String :=
  String.mk (b64EncodeChunks data)

/-- String-level base64 decoding, the inverse reading of `b64encode`. -/
def b64decode (s : String) : Option (List Nat) :=
  b64DecodeChunks s.data

/-! ## `edgetts.py`: the `EdgeTTSClient` class -/

/-- The `EdgeTTSClient` object: constructor arguments `voice`, `s3_bucket`,
`s3_region` (`s3_client` is set exactly when `s3_bucket` is, boto3 being
bundled). -/
structure EdgeTTSClient where
  voice : String
  s3Bucket : Option String
  s3Region : String
  deriving DecidableEq, Repr

deriving instance DecidableEq for Except

/-- Environment of one synthesis call: what the filesystem, the EdgeTTS
engine, the wall clock and S3 do during this call. -/
structure SynthEnv where
  /-- `tempfile.NamedTemporaryFile` succeeds. -/
  tempFileOk : Bool
  /-- Message of the exception raised when the temp file cannot be created. -/
  tempFileErrMsg : String
  /-- What `communicate.save(path)` does: writes these bytes to the file, or
  raises with this message. -/
  saveResult : Except String (List Nat)
  /-- Wall-clock duration of the awaited engine call, in milliseconds. -/
  engineDurationMs : Nat
  /-- `s3_client.put_object` succeeds. -/
  uploadOk : Bool
  /-- `ClientError` message when the upload fails. -/
  uploadErrMsg : String
  /-- `int(time.time())` at upload time. -/
  timestamp : Nat
  /-- `hashlib.md5(text.encode()).hexdigest()[:8]`. -/
  textHash : String
  deriving DecidableEq, Repr

/-- Result of the coroutine `_synthesize_async`: the audio bytes or the
raised exception, plus whether its scratch file still exists afterwards. -/
structure AsyncOut where
  result : Except PyExc (List Nat)
  scratchLeft : Bool
  deriving DecidableEq, Repr

/-- The `finally` block of `_synthesize_async`: `os.unlink` the temp file
when one exists. -/
def cleanupScratch (fileExists : Bool) : Bool :=
  if fileExists then false else fileExists

/-- The outer exception wrapper of `_synthesize_async` (its line 199). -/
def EdgeTTSClient.asyncWrap (c : EdgeTTSClient) (text msg : String) : PyExc :=
  .exc ("EdgeTTS synthesis error: " ++ msg ++ ". Voice: " ++ c.voice ++
    ", Text length: " ++ toString text.length)

/-- Embedding of `EdgeTTSClient._synthesize_async`: create a scratch file in
`/tmp`, have the engine save audio into it, reject an empty file, read the
bytes back, and remove the scratch file in a `finally` on every path; every
raised exception is wrapped with voice and text-length context. -/
def EdgeTTSClient.synthesizeAsync (c : EdgeTTSClient) (text : String)
    (env : SynthEnv) : AsyncOut :=
  if env.tempFileOk then
    match env.saveResult with
    | .error msg =>
        -- `communicate.save` raised; rewrapped, re-raised, file unlinked
        { result := .error (c.asyncWrap text ("Failed to save audio file: " ++ msg)),
          scratchLeft := cleanupScratch true }
    | .ok fileBytes =>
        if fileBytes.length = 0 then
          { result := .error (c.asyncWrap text "File was created but is empty (0 bytes)"),
            scratchLeft := cleanupScratch true }
        else
          { result := .ok fileBytes, scratchLeft := cleanupScratch true }
  else
    -- `NamedTemporaryFile` raised before any file existed
    { result := .error (c.asyncWrap text env.tempFileErrMsg),
      scratchLeft := cleanupScratch false }

/-- The `timeout=15.0` seconds passed to `asyncio.wait_for`, in milliseconds. -/
def synthesisTimeoutMs : Nat := 15000

/-- Message of the exception raised on `asyncio.TimeoutError`. -/
def synthesisTimeoutMsg : String :=
  "EdgeTTS synthesis timed out after 15 seconds. This might indicate a network issue or the service is slow."

/-- Message of the dead-code empty-payload check of `synthesize` (line 98). -/
def emptyAudioMsg : String :=
  "No audio was received. Please verify that your parameters are correct."

/-- Embedding of `EdgeTTSClient._upload_to_s3`: put the bytes under
`tts/{timestamp}_{hash8}.mp3` with public-read ACL and return the public URL,
or wrap the `ClientError`. -/
def EdgeTTSClient.uploadToS3 (c : EdgeTTSClient) (bucket : String)
    (env : SynthEnv) : Except PyExc String :=
  let filename := "tts/" ++ toString env.timestamp ++ "_" ++ env.textHash ++ ".mp3"
  if env.uploadOk then
    .ok ("https://" ++ bucket ++ ".s3." ++ c.s3Region ++ ".amazonaws.com/" ++ filename)
  else
    .error (.exc ("Failed to upload audio to S3: " ++ env.uploadErrMsg))

/-- Embedding of `EdgeTTSClient._create_data_uri`: refuse payloads over
100000 bytes, otherwise return a base64 `data:` URI. -/
def EdgeTTSClient.createDataUri (audioData : List Nat) : Except PyExc String :=
  if audioData.length > 100000 then
    .error (.exc "Audio file too large for data URI. Please configure S3 bucket.")
  else
    .ok ("data:audio/mpeg;base64," ++ b64encode audioData)

/-- Effects observable from one `EdgeTTSClient.synthesize` call. -/
structure ClientTrace where
  /-- The engine coroutine was started. -/
  engineCalled : Bool
  /-- A scratch file survived the call. -/
  scratchLeft : Bool
  /-- `_upload_to_s3` was called. -/
  uploadAttempted : Bool
  /-- `_create_data_uri` was called. -/
  inlineAttempted : Bool
  deriving DecidableEq, Repr

/-- Embedding of `EdgeTTSClient.synthesize`: reject empty/whitespace text
with `ValueError`, run `_synthesize_async` under a 15 s `asyncio.wait_for`
(timeout cancels the coroutine, whose `finally` still removes the scratch
file), rewrap any engine failure, then upload to S3 when a bucket is
configured (raising on upload failure) and otherwise fall back to a data
URI. -/
def EdgeTTSClient.synthesize (c : EdgeTTSClient) (text : String)
    (env : SynthEnv) : Except PyExc String × ClientTrace :=
  if text = "" ∨ pyStrip text = "" then
    (.error (.valueError "Text cannot be empty"),
     { engineCalled := false, scratchLeft := false,
       uploadAttempted := false, inlineAttempted := false })
  else
    let a := c.synthesizeAsync text env
    if env.engineDurationMs > synthesisTimeoutMs then
      -- `asyncio.TimeoutError` branch; cancellation ran the coroutine finally
      (.error (.exc synthesisTimeoutMsg),
       { engineCalled := true, scratchLeft := a.scratchLeft,
         uploadAttempted := false, inlineAttempted := false })
    else
      match a.result with
      | .error e =>
          (.error (.exc ("EdgeTTS synthesis failed: " ++ pyStr e)),
           { engineCalled := true, scratchLeft := a.scratchLeft,
             uploadAttempted := false, inlineAttempted := false })
      | .ok audioData =>
          if audioData.length = 0 then
            -- line 98: unreachable given the file-level checks, kept faithfully
            (.error (.exc ("EdgeTTS synthesis failed: " ++ emptyAudioMsg)),
             { engineCalled := true, scratchLeft := a.scratchLeft,
               uploadAttempted := false, inlineAttempted := false })
          else
            match c.s3Bucket with
            | some bucket =>
                (c.uploadToS3 bucket env,
                 { engineCalled := true, scratchLeft := a.scratchLeft,
                   uploadAttempted := true, inlineAttempted := false })
            | none =>
                (EdgeTTSClient.createDataUri audioData,
                 { engineCalled := true, scratchLeft := a.scratchLeft,
                   uploadAttempted := false, inlineAttempted := true })

/-! ## `lambda_function.py`: configuration and the `synthesize` pipeline -/

/-- The configured EdgeTTS voice (`VOICE`). -/
def VOICE : String := "en-CA-LiamNeural"

/-- Hard-coded default of the `GITHUB_AUDIO_URL` environment variable. -/
def githubAudioUrlDefault : String :=
  "https://raw.githubusercontent.com/Jarvis4everyone/alexa/main/speech.mp3"

/-- Module-level `GITHUB_AUDIO_URL = os.environ.get("GITHUB_AUDIO_URL", <default>)`
as a function of the (optional) environment-variable value. -/
def GITHUB_AUDIO_URL (envVar : Option String) : String :=
  envVar.getD githubAudioUrlDefault

/-- SSML `<audio src="URL"/>` element as built by the f-strings of
`synthesize`. -/
def audioTag (url : String) : String :=
  "<audio src=\"" ++ url ++ "\"/>"

/-- SSML `<speak>...</speak>` element as built by the f-strings of
`synthesize`. -/
def speakTag (body : String) : String :=
  "<speak>" ++ body ++ "</speak>"

/-- The dictionary `{"audio": ..., "text": ...}` returned by `synthesize`;
the `text` field becomes the card text of the response. -/
structure SynthResult where
  audio : String
  text : String
  deriving DecidableEq, Repr

/-- Environment of one pipeline `synthesize` call: the module configuration
and everything the outside world does during the call. -/
structure PipelineEnv where
  /-- Value of the module global `GITHUB_AUDIO_URL`. -/
  githubAudioUrl : String
  /-- Value of the module global `S3_BUCKET` (`None` when unset). -/
  s3Bucket : Option String
  /-- Value of the module global `S3_REGION`. -/
  s3Region : String
  /-- Modelled from the spec: the remote GitHub directory listing that the
  spec's DirectoryRandom tier would consult (empty when the fetch fails).
  The code under `src/` never fetches or reads it. -/
  directoryListing : List String
  /-- Outcome of scanning the candidate `speech.mp3` paths: bytes of the
  first existing readable file, or `none` when no path yields one. -/
  bundledRead : Option (List Nat)
  /-- The pre-generated-file `put_object` call succeeds. -/
  pregenUploadOk : Bool
  /-- Message of the exception when that upload fails. -/
  pregenUploadErrMsg : String
  /-- `get_tts_client()` succeeds (the `edge_tts` import is available). -/
  clientAvailable : Bool
  /-- Message of the exception raised when client construction fails. -/
  clientInitErrMsg : String
  /-- `int(time.time())` in the pre-generated-file tier. -/
  timestamp : Nat
  /-- `hashlib.md5(text.encode()).hexdigest()[:8]` in that tier. -/
  textHash : String
  /-- Environment of the nested `EdgeTTSClient.synthesize` call. -/
  synthEnv : SynthEnv

/-- Effects observable from one pipeline `synthesize` call. -/
structure PipeTrace where
  /-- The static GitHub URL tier produced the response. -/
  usedStatic : Bool
  /-- The pre-generated-file tier attempted an S3 upload. -/
  bundledUploadAttempted : Bool
  /-- `tts_client.synthesize` was invoked. -/
  engineInvoked : Bool
  deriving DecidableEq, Repr

/-- The pre-generated `speech.mp3` tier (lines 81–140 of
`lambda_function.py`): if a bundled file was read and is non-empty, upload it
to S3 when a bucket is configured; every raise inside the tier is caught and
turns into `none` (fall through to the next tier).  The second component
records whether an upload was attempted. -/
def bundledTier (text : String) (env : PipelineEnv) :
    Option SynthResult × Bool :=
  match env.bundledRead with
  | some audioData =>
      if audioData.length > 0 then
        match env.s3Bucket with
        | some bucket =>
            if env.pregenUploadOk then
              let s3Key := "tts/speech_" ++ toString env.timestamp ++ "_" ++
                env.textHash ++ ".mp3"
              let url := "https://" ++ bucket ++ ".s3." ++ env.s3Region ++
                ".amazonaws.com/" ++ s3Key
              (some { audio := audioTag url, text := text }, true)
            else
              -- "S3 upload failed: ..." raised, caught at the tier boundary
              (none, true)
        | none =>
            -- "S3_BUCKET must be configured..." raised, caught likewise
            (none, false)
      else
        (none, false)
  | none => (none, false)

/-- The `except` branch of the EdgeTTS tier (lines 160–180): with
`show_error` the error is spoken and put on the card, otherwise the raw text
is wrapped for Alexa's own TTS. -/
def fallbackResult (text : String)
    (showError : Bool) (errorMsg : String) : SynthResult :=
  if showError then
    { audio := speakTag (text ++ ". Error: " ++
        ("EdgeTTS Error: " ++ pySlice errorMsg 100)),
      text := text ++ " - ERROR: " ++ errorMsg }
  else
    { audio := speakTag text, text := text }

/-- The EdgeTTS tier (lines 143–180): build the client, synthesize, and wrap
the returned URL in an audio tag (the `data:`/HTTPS branches of line 150
return the same dictionary); any exception, including client-construction
failure, selects `fallbackResult`.  The second component records whether
`tts_client.synthesize` was invoked. -/
def edgeTier (text : String) (showError : Bool) (env : PipelineEnv) :
    SynthResult × Bool :=
  if env.clientAvailable then
    let client : EdgeTTSClient := ⟨VOICE, env.s3Bucket, env.s3Region⟩
    match (client.synthesize text env.synthEnv).1 with
    | .ok url => ({ audio := audioTag url, text := text }, true)
    | .error e => (fallbackResult text showError (pyStr e), true)
  else
    (fallbackResult text showError env.clientInitErrMsg, false)

/-- Tiers two onward of `synthesize` (everything after the static-URL check
fails): pre-generated file, then EdgeTTS, then the speak-tag fallback. -/
def laterTiers (text : String) (showError : Bool) (env : PipelineEnv) :
    SynthResult × PipeTrace :=
  match bundledTier text env with
  | (some r, up) =>
      (r, { usedStatic := false, bundledUploadAttempted := up,
            engineInvoked := false })
  | (none, up) =>
      let (r, eng) := edgeTier text showError env
      (r, { usedStatic := false, bundledUploadAttempted := up,
            engineInvoked := eng })

/-- Embedding of `synthesize(text, show_error=False)` of
`lambda_function.py`: the full audio-resolution pipeline.  The function is
total — every exception raised inside the source body is caught before the
function returns — which models its never-throws outer contract. -/
def synthesize (text : String) (showError : Bool) (env : PipelineEnv) :
    SynthResult × PipeTrace :=
  if env.githubAudioUrl = "" then
    laterTiers text showError env
  else
    ({ audio := audioTag env.githubAudioUrl, text := text },
     { usedStatic := true, bundledUploadAttempted := false,
       engineInvoked := false })

/-! ## Concrete environments used by witnesses and counterexamples -/

/-- A synthesis-call environment in which every external step succeeds
quickly. -/
def synthEnvOk : SynthEnv :=
  { tempFileOk := true, tempFileErrMsg := "", saveResult := .ok [1, 2, 3],
    engineDurationMs := 100, uploadOk := true, uploadErrMsg := "",
    timestamp := 0, textHash := "abcd0123" }

/-- A synthesis-call environment in which the engine call takes 20 seconds. -/
def synthEnvTimeout : SynthEnv :=
  { tempFileOk := true, tempFileErrMsg := "", saveResult := .ok [1, 2, 3],
    engineDurationMs := 20000, uploadOk := true, uploadErrMsg := "",
    timestamp := 0, textHash := "abcd0123" }

/-- A synthesis-call environment in which synthesis succeeds with a small
payload but the S3 upload is refused. -/
def synthEnvUploadFail : SynthEnv :=
  { tempFileOk := true, tempFileErrMsg := "", saveResult := .ok [1, 2, 3],
    engineDurationMs := 100, uploadOk := false, uploadErrMsg := "AccessDenied",
    timestamp := 7, textHash := "abcd0123" }

/-- A client configured with an S3 bucket. -/
def clientWithBucket : EdgeTTSClient :=
  { voice := VOICE, s3Bucket := some "mybucket", s3Region := "us-east-1" }

/-- A client configured without an S3 bucket. -/
def clientNoBucket : EdgeTTSClient :=
  { voice := VOICE, s3Bucket := none, s3Region := "us-east-1" }

/-- The default deployment configuration: static GitHub URL present, no S3
bucket, EdgeTTS import unavailable. -/
def envDefault : PipelineEnv :=
  { githubAudioUrl := githubAudioUrlDefault, s3Bucket := none,
    s3Region := "us-east-1", directoryListing := [], bundledRead := none,
    pregenUploadOk := true, pregenUploadErrMsg := "",
    clientAvailable := false, clientInitErrMsg := "Unable to import module",
    timestamp := 0, textHash := "abcd0123", synthEnv := synthEnvOk }

/-- The scenario of the end-to-end spec example: every tier unavailable. -/
def envAllFail : PipelineEnv :=
  { githubAudioUrl := "", s3Bucket := none, s3Region := "us-east-1",
    directoryListing := [], bundledRead := none, pregenUploadOk := true,
    pregenUploadErrMsg := "", clientAvailable := false,
    clientInitErrMsg := "Unable to import module", timestamp := 0,
    textHash := "abcd0123", synthEnv := synthEnvOk }

/-- A configuration with no static URL but a non-empty remote listing, a
bundled file, and a working store. -/
def envListing : PipelineEnv :=
  { githubAudioUrl := "", s3Bucket := some "mybucket", s3Region := "us-east-1",
    directoryListing := ["a.mp3"], bundledRead := some [1, 2, 3],
    pregenUploadOk := true, pregenUploadErrMsg := "",
    clientAvailable := false, clientInitErrMsg := "Unable to import module",
    timestamp := 5, textHash := "abcd0123", synthEnv := synthEnvOk }

/-! ## Helper lemmas -/

/-- Decoding a digit character recovers the sextet, checked over all 64. -/
theorem charSextet_sextetChar_fin :
    ∀ s : Fin 64, charSextet (sextetChar s.val) = s.val := by decide

/-- No digit character of a sextet is the padding character, over all 64. -/
theorem sextetChar_ne_pad_fin : ∀ s : Fin 64, sextetChar s.val ≠ '=' := by decide

/-- Decoding a digit character recovers the sextet. -/
theorem charSextet_sextetChar (s : Nat) (h : s < 64) :
    charSextet (sextetChar s) = s :=
  charSextet_sextetChar_fin ⟨s, h⟩

/-- No digit character of a sextet is the padding character. -/
theorem sextetChar_ne_pad (s : Nat) (h : s < 64) : sextetChar s ≠ '=' :=
  sextetChar_ne_pad_fin ⟨s, h⟩

/-- Base64 round trip at chunk level: decoding an encoded byte list gives
back the bytes, provided every entry is an actual byte. -/
theorem b64DecodeChunks_encode (data : List Nat) (h : ∀ b ∈ data, b < 256) :
    b64DecodeChunks (b64EncodeChunks data) = some data := by
  induction data using b64EncodeChunks.induct with
  | case1 b1 b2 b3 rest ih =>
      have hb1 : b1 < 256 := h b1 (by simp)
      have hb2 : b2 < 256 := h b2 (by simp)
      have hb3 : b3 < 256 := h b3 (by simp)
      have hrest : ∀ b ∈ rest, b < 256 := fun b hb => h b (by simp [hb])
      have h1 : b1 / 4 < 64 := by omega
      have h2 : (b1 % 4) * 16 + b2 / 16 < 64 := by omega
      have h3 : (b2 % 16) * 4 + b3 / 64 < 64 := by omega
      have h4 : b3 % 64 < 64 := by omega
      simp only [b64EncodeChunks, b64DecodeChunks]
      rw [if_neg (by simp [sextetChar_ne_pad _ h3]),
        if_neg (by simp [sextetChar_ne_pad _ h4]), ih hrest]
      simp only [charSextet_sextetChar _ h1, charSextet_sextetChar _ h2,
        charSextet_sextetChar _ h3, charSextet_sextetChar _ h4,
        Option.some.injEq, List.cons.injEq]
      exact ⟨by omega, by omega, by omega, trivial⟩
  | case2 b1 b2 =>
      have hb1 : b1 < 256 := h b1 (by simp)
      have hb2 : b2 < 256 := h b2 (by simp)
      have h1 : b1 / 4 < 64 := by omega
      have h2 : (b1 % 4) * 16 + b2 / 16 < 64 := by omega
      have h3 : (b2 % 16) * 4 < 64 := by omega
      simp only [b64EncodeChunks, b64DecodeChunks]
      rw [if_neg (by simp [sextetChar_ne_pad _ h3]), if_pos (by simp)]
      simp only [charSextet_sextetChar _ h1, charSextet_sextetChar _ h2,
        charSextet_sextetChar _ h3, Option.some.injEq, List.cons.injEq]
      exact ⟨by omega, by omega, trivial⟩
  | case3 b1 =>
      have hb1 : b1 < 256 := h b1 (by simp)
      have h1 : b1 / 4 < 64 := by omega
      have h2 : (b1 % 4) * 16 < 64 := by omega
      simp only [b64EncodeChunks, b64DecodeChunks]
      rw [if_pos (by simp)]
      simp only [charSextet_sextetChar _ h1, charSextet_sextetChar _ h2,
        Option.some.injEq, List.cons.injEq]
      exact ⟨by omega, trivial⟩
  | case4 => rfl

/-- Base64 round trip at string level. -/
theorem b64decode_b64encode (data : List Nat) (h : ∀ b ∈ data, b < 256) :
    b64decode (b64encode data) = some data :=
  b64DecodeChunks_encode data h

/-- The coroutine `_synthesize_async` never leaves its scratch file behind:
the `finally` clause removes it on the success, empty-file, and
save-failure paths, and no file exists on the creation-failure path. -/
theorem synthesizeAsync_scratchLeft (c : EdgeTTSClient) (text : String)
    (env : SynthEnv) : (c.synthesizeAsync text env).scratchLeft = false := by
  simp only [EdgeTTSClient.synthesizeAsync, cleanupScratch]
  split
  · split
    · rfl
    · split <;> rfl
  · rfl

/-- The timeout message differs from every message produced by the generic
`except Exception` wrapper of `EdgeTTSClient.synthesize`, whatever the
wrapped cause: the two disagree within their first twenty characters. -/
theorem timeoutMsg_ne_failedWrap (cause : String) :
    synthesisTimeoutMsg ≠ "EdgeTTS synthesis failed: " ++ cause := by
  intro h
  have h2 := congrArg (fun s : String => s.data.take 20) h
  simp only [String.data_append, List.take_append_eq_append_take,
    List.length_cons, List.length_nil] at h2
  norm_num at h2
  exact absurd h2 (by decide)

/-- An audio tag is never the empty string. -/
theorem audioTag_ne_empty (u : String) : audioTag u ≠ "" := by
  intro h
  have h2 := congrArg String.length h
  rw [audioTag, String.length_append, String.length_append] at h2
  have e1 : ("<audio src=\"" : String).length = 12 := rfl
  have e2 : ("\"/>" : String).length = 3 := rfl
  have e3 : ("" : String).length = 0 := rfl
  omega

/-- A speak tag is never the empty string. -/
theorem speakTag_ne_empty (b : String) : speakTag b ≠ "" := by
  intro h
  have h2 := congrArg String.length h
  rw [speakTag, String.length_append, String.length_append] at h2
  have e1 : ("<speak>" : String).length = 7 := rfl
  have e2 : ("</speak>" : String).length = 8 := rfl
  have e3 : ("" : String).length = 0 := rfl
  omega

/-- The fallback branch always produces a speak tag. -/
theorem fallbackResult_audio (text : String) (showError : Bool) (msg : String) :
    ∃ b, (fallbackResult text showError msg).audio = speakTag b := by
  unfold fallbackResult
  split
  · exact ⟨_, rfl⟩
  · exact ⟨_, rfl⟩

/-- The EdgeTTS tier produces an audio tag or a speak tag. -/
theorem edgeTier_audio (text : String) (showError : Bool) (env : PipelineEnv) :
    (∃ u, (edgeTier text showError env).1.audio = audioTag u) ∨
    (∃ b, (edgeTier text showError env).1.audio = speakTag b) := by
  simp only [edgeTier]
  split
  · split
    · exact Or.inl ⟨_, rfl⟩
    · exact Or.inr (fallbackResult_audio text showError _)
  · exact Or.inr (fallbackResult_audio text showError _)

/-- A response produced by the pre-generated-file tier is an audio tag. -/
theorem bundledTier_audio (text : String) (env : PipelineEnv)
    (r : SynthResult) (up : Bool) (h : bundledTier text env = (some r, up)) :
    ∃ u, r.audio = audioTag u := by
  unfold bundledTier at h
  split at h
  · split at h
    · split at h
      · split at h
        · injection h with h1 h2
          injection h1 with h1
          exact ⟨_, by rw [← h1]⟩
        · injection h with h1 h2
          exact absurd h1 (by simp)
      · injection h with h1 h2
        exact absurd h1 (by simp)
    · injection h with h1 h2
      exact absurd h1 (by simp)
  · injection h with h1 h2
    exact absurd h1 (by simp)

/-- Every pipeline response's audio field is an audio tag or a speak tag. -/
theorem synthesize_audio_shape (text : String) (showError : Bool)
    (env : PipelineEnv) :
    (∃ u, (synthesize text showError env).1.audio = audioTag u) ∨
    (∃ b, (synthesize text showError env).1.audio = speakTag b) := by
  unfold synthesize
  split
  · unfold laterTiers
    split
    case h_1 r up heq =>
      exact Or.inl (by simpa using bundledTier_audio text env r up heq)
    case h_2 up heq =>
      simpa using edgeTier_audio text showError env
  · exact Or.inl ⟨_, rfl⟩

/-! ## Claims -/

/-- C1: for every non-empty input text and every value of the diagnostics
flag, the pipeline's outer call `synthesize` returns — in every
configuration of static URL, store, bundled file and engine behaviour — a
result whose audio field is a non-empty string that is either an
`<audio src="..."/>` tag or a `<speak>...</speak>` tag; the embedding is a
total function, modelling that every exception raised inside the source
body is caught before the call returns. -/
theorem synthesize_never_fails_audio_wellformed (text : String)
    (showError : Bool) (env : PipelineEnv) (h : text ≠ "") :
    ((∃ u, (synthesize text showError env).1.audio = audioTag u) ∨
      (∃ b, (synthesize text showError env).1.audio = speakTag b)) ∧
    (synthesize text showError env).1.audio ≠ "" := by
  refine ⟨synthesize_audio_shape text showError env, ?_⟩
  rcases synthesize_audio_shape text showError env with ⟨u, hu⟩ | ⟨b, hb⟩
  · rw [hu]
    exact audioTag_ne_empty u
  · rw [hb]
    exact speakTag_ne_empty b

/-- Witness for C1 at a concrete text and environment. -/
theorem synthesize_never_fails_audio_wellformed_witness :
    ("Hello" : String) ≠ "" ∧
    (((∃ u, (synthesize "Hello" false envDefault).1.audio = audioTag u) ∨
      (∃ b, (synthesize "Hello" false envDefault).1.audio = speakTag b)) ∧
    (synthesize "Hello" false envDefault).1.audio ≠ "") :=
  ⟨by decide,
   synthesize_never_fails_audio_wellformed "Hello" false envDefault (by decide)⟩

/-- C3: if a static audio URL is configured, `synthesize` returns an audio
tag containing exactly that URL, attempts no later tier (no bundled upload,
no engine call), and the returned audio is independent of the text. -/
theorem static_url_short_circuit (text : String) (showError : Bool)
    (env : PipelineEnv) (h : env.githubAudioUrl ≠ "") :
    synthesize text showError env =
      ({ audio := audioTag env.githubAudioUrl, text := text },
       { usedStatic := true, bundledUploadAttempted := false,
         engineInvoked := false }) ∧
    (∀ t' : String, (synthesize t' showError env).1.audio =
      audioTag env.githubAudioUrl) := by
  constructor
  · unfold synthesize
    rw [if_neg h]
  · intro t'
    unfold synthesize
    rw [if_neg h]

/-- Witness for C3 at the default configuration. -/
theorem static_url_short_circuit_witness :
    envDefault.githubAudioUrl ≠ "" ∧
    (synthesize "Hello" false envDefault =
      ({ audio := audioTag envDefault.githubAudioUrl, text := "Hello" },
       { usedStatic := true, bundledUploadAttempted := false,
         engineInvoked := false }) ∧
    (∀ t' : String, (synthesize t' false envDefault).1.audio =
      audioTag envDefault.githubAudioUrl)) :=
  ⟨by decide, static_url_short_circuit "Hello" false envDefault (by decide)⟩

/-- C8: with the text of the stop handler, no static URL, no store, an
empty remote listing, no bundled file and the engine unavailable, the
pipeline falls through every tier and answers with the platform speak tag
around the raw text. -/
theorem goodbye_all_tiers_fallthrough :
    envAllFail.githubAudioUrl = "" ∧ envAllFail.s3Bucket = none ∧
    envAllFail.directoryListing = [] ∧ envAllFail.bundledRead = none ∧
    envAllFail.clientAvailable = false ∧
    (synthesize "Goodbye for now!" false envAllFail).1 =
      { audio := "<speak>Goodbye for now!</speak>",
        text := "Goodbye for now!" } := by
  decide

/-- C10: with the environment variable unset, the module global falls back
to the hard-coded non-empty default URL, so the static tier always fires
and no later tier is reached; the static tier is disabled exactly by
setting the variable to the empty string. -/
theorem default_config_static_tier_always (text : String) (showError : Bool)
    (env : PipelineEnv) (h : env.githubAudioUrl = GITHUB_AUDIO_URL none) :
    GITHUB_AUDIO_URL none = githubAudioUrlDefault ∧
    githubAudioUrlDefault ≠ "" ∧
    synthesize text showError env =
      ({ audio := audioTag githubAudioUrlDefault, text := text },
       { usedStatic := true, bundledUploadAttempted := false,
         engineInvoked := false }) ∧
    (∀ v : Option String, GITHUB_AUDIO_URL v = "" ↔ v = some "") := by
  have hne : env.githubAudioUrl ≠ "" := by
    rw [h]
    decide
  refine ⟨rfl, by decide, ?_, ?_⟩
  · unfold synthesize
    rw [if_neg hne, h]
    rfl
  · intro v
    cases v with
    | none => decide
    | some s => simp [GITHUB_AUDIO_URL]

/-- Witness for C10 at the default configuration. -/
theorem default_config_static_tier_always_witness :
    envDefault.githubAudioUrl = GITHUB_AUDIO_URL none ∧
    (GITHUB_AUDIO_URL none = githubAudioUrlDefault ∧
    githubAudioUrlDefault ≠ "" ∧
    synthesize "Hello" false envDefault =
      ({ audio := audioTag githubAudioUrlDefault, text := "Hello" },
       { usedStatic := true, bundledUploadAttempted := false,
         engineInvoked := false }) ∧
    (∀ v : Option String, GITHUB_AUDIO_URL v = "" ↔ v = some "")) :=
  ⟨by decide,
   default_config_static_tier_always "Hello" false envDefault (by decide)⟩

/-- The guard of `EdgeTTSClient.synthesize` is not taken when the stripped
text is non-empty. -/
theorem pyStrip_empty_of_ne (text : String) (h1 : pyStrip text ≠ "") :
    ¬ (text = "" ∨ pyStrip text = "") := by
  rintro (rfl | hs)
  · exact h1 rfl
  · exact h1 hs

/-- Evaluation of the coroutine when the scratch file is created and the
engine writes a non-empty payload. -/
theorem synthesizeAsync_ok (c : EdgeTTSClient) (text : String)
    (env : SynthEnv) (bytes : List Nat)
    (h3 : env.tempFileOk = true) (h4 : env.saveResult = .ok bytes)
    (h5 : bytes ≠ []) :
    c.synthesizeAsync text env =
      { result := .ok bytes, scratchLeft := false } := by
  unfold EdgeTTSClient.synthesizeAsync
  rw [h3, if_pos rfl, h4]
  simp [cleanupScratch, List.length_eq_zero, h5]

/-- A string of whitespace characters strips to the empty string. -/
theorem all_space_pyStrip (text : String)
    (h : text.data.all pyIsSpace = true) : pyStrip text = "" := by
  unfold pyStrip
  have hd : text.data.dropWhile pyIsSpace = [] := by
    rw [List.dropWhile_eq_nil_iff]
    intro x hx
    exact List.all_eq_true.mp h x hx
  rw [hd]
  rfl

/-- C2 counterexample: with no static URL, a non-empty remote directory
listing, and a bundled file available, the pipeline does not return the
remote URL of a listed filename — it proceeds to the bundled-file tier and
answers with the bundled file's S3 upload URL, refuting both halves of the
claim. -/
theorem directory_tier_counterexample :
    envListing.githubAudioUrl = "" ∧
    envListing.directoryListing = ["a.mp3"] ∧
    (synthesize "Hello" false envListing).2.bundledUploadAttempted = true ∧
    (synthesize "Hello" false envListing).1.audio =
      audioTag "https://mybucket.s3.us-east-1.amazonaws.com/tts/speech_5_abcd0123.mp3" := by
  decide

/-- C2 (amended): the pipeline in the source has no directory-listing tier.
The remote listing is never consulted — the response is identical under any
replacement of the listing — and when no static URL is present the pipeline
proceeds directly to the bundled-file tier. -/
theorem no_directory_tier (text : String) (showError : Bool)
    (env : PipelineEnv) (l : List String) (h : env.githubAudioUrl = "") :
    synthesize text showError { env with directoryListing := l } =
      synthesize text showError env ∧
    synthesize text showError env = laterTiers text showError env := by
  constructor
  · cases env
    rfl
  · unfold synthesize
    rw [if_pos h]

/-- Witness for the amended C2 at a concrete environment. -/
theorem no_directory_tier_witness :
    envListing.githubAudioUrl = "" ∧
    (synthesize "Hello" false { envListing with directoryListing := [] } =
      synthesize "Hello" false envListing ∧
    synthesize "Hello" false envListing =
      laterTiers "Hello" false envListing) :=
  ⟨by decide, no_directory_tier "Hello" false envListing [] (by decide)⟩

/-- C4: the synthesis call runs the engine under a hard 15000 ms wall-clock
timeout; when the timeout elapses it fails with the dedicated timeout
failure, leaves no scratch file, and that failure differs from every
failure produced by the generic wrapper — in particular from the wrapped
empty-payload failure. -/
theorem synthesize_timeout_distinct (c : EdgeTTSClient) (text : String)
    (env : SynthEnv) (h1 : pyStrip text ≠ "")
    (h2 : env.engineDurationMs > synthesisTimeoutMs) :
    synthesisTimeoutMs = 15000 ∧
    (c.synthesize text env).1 = .error (.exc synthesisTimeoutMsg) ∧
    (c.synthesize text env).2.scratchLeft = false ∧
    (∀ cause, synthesisTimeoutMsg ≠ "EdgeTTS synthesis failed: " ++ cause) ∧
    synthesisTimeoutMsg ≠ "EdgeTTS synthesis failed: " ++ emptyAudioMsg := by
  have hcond := pyStrip_empty_of_ne text h1
  refine ⟨rfl, ?_, ?_, timeoutMsg_ne_failedWrap, timeoutMsg_ne_failedWrap _⟩
  · simp only [EdgeTTSClient.synthesize, if_neg hcond, if_pos h2]
  · simp only [EdgeTTSClient.synthesize, if_neg hcond, if_pos h2]
    exact synthesizeAsync_scratchLeft c text env

/-- Witness for C4 at a concrete client, text, and 20-second engine call. -/
theorem synthesize_timeout_distinct_witness :
    pyStrip "Hello" ≠ "" ∧
    synthEnvTimeout.engineDurationMs > synthesisTimeoutMs ∧
    (synthesisTimeoutMs = 15000 ∧
    (clientWithBucket.synthesize "Hello" synthEnvTimeout).1 =
      .error (.exc synthesisTimeoutMsg) ∧
    (clientWithBucket.synthesize "Hello" synthEnvTimeout).2.scratchLeft = false ∧
    (∀ cause, synthesisTimeoutMsg ≠ "EdgeTTS synthesis failed: " ++ cause) ∧
    synthesisTimeoutMsg ≠ "EdgeTTS synthesis failed: " ++ emptyAudioMsg) :=
  ⟨by decide, by decide,
   synthesize_timeout_distinct clientWithBucket "Hello" synthEnvTimeout
     (by decide) (by decide)⟩

/-- C5 counterexample: with a store configured, a successful synthesis of a
three-byte payload (far below the inline threshold) and a failing upload,
the client fails the tier with the upload error and never attempts the
inline data-URI fallback. -/
theorem upload_failure_no_inline_counterexample :
    clientWithBucket.s3Bucket = some "mybucket" ∧
    synthEnvUploadFail.uploadOk = false ∧
    synthEnvUploadFail.saveResult = .ok [1, 2, 3] ∧
    ([1, 2, 3] : List Nat).length ≤ 100000 ∧
    (clientWithBucket.synthesize "Hello" synthEnvUploadFail).1 =
      .error (.exc "Failed to upload audio to S3: AccessDenied") ∧
    (clientWithBucket.synthesize "Hello" synthEnvUploadFail).2.inlineAttempted
      = false := by
  decide

/-- C5 (amended): after synthesis succeeds, the client attempts the inline
data-URI fallback exactly when no store is configured — that path fails
only when the payload exceeds the inline threshold — while with a store
configured it attempts the upload and, if the upload fails, fails the tier
without attempting the inline fallback. -/
theorem upload_failure_fails_tier (c : EdgeTTSClient) (text : String)
    (env : SynthEnv) (bytes : List Nat) (h1 : pyStrip text ≠ "")
    (h2 : ¬ env.engineDurationMs > synthesisTimeoutMs)
    (h3 : env.tempFileOk = true) (h4 : env.saveResult = .ok bytes)
    (h5 : bytes ≠ []) :
    (c.s3Bucket = none →
      (c.synthesize text env).1 = EdgeTTSClient.createDataUri bytes ∧
      (c.synthesize text env).2.inlineAttempted = true ∧
      (c.synthesize text env).2.uploadAttempted = false) ∧
    (∀ bucket, c.s3Bucket = some bucket →
      (c.synthesize text env).2.uploadAttempted = true ∧
      (c.synthesize text env).2.inlineAttempted = false ∧
      (c.synthesize text env).1 = c.uploadToS3 bucket env ∧
      (env.uploadOk = false →
        (c.synthesize text env).1 =
          .error (.exc ("Failed to upload audio to S3: " ++ env.uploadErrMsg)))) := by
  have hcond := pyStrip_empty_of_ne text h1
  have ha := synthesizeAsync_ok c text env bytes h3 h4 h5
  have hlen : ¬ bytes.length = 0 := by simpa using h5
  constructor
  · intro hb
    simp only [EdgeTTSClient.synthesize, if_neg hcond, if_neg h2, ha,
      if_neg hlen, hb]
    exact ⟨trivial, trivial, trivial⟩
  · intro bucket hb
    simp only [EdgeTTSClient.synthesize, if_neg hcond, if_neg h2, ha,
      if_neg hlen, hb]
    refine ⟨trivial, trivial, trivial, ?_⟩
    intro hup
    unfold EdgeTTSClient.uploadToS3
    rw [hup]
    rfl

/-- Witness for the amended C5 with no store configured. -/
theorem upload_failure_fails_tier_witness :
    pyStrip "Hello" ≠ "" ∧
    ¬ synthEnvOk.engineDurationMs > synthesisTimeoutMs ∧
    synthEnvOk.tempFileOk = true ∧
    synthEnvOk.saveResult = .ok [1, 2, 3] ∧ ([1, 2, 3] : List Nat) ≠ [] ∧
    ((clientNoBucket.s3Bucket = none →
      (clientNoBucket.synthesize "Hello" synthEnvOk).1 =
        EdgeTTSClient.createDataUri [1, 2, 3] ∧
      (clientNoBucket.synthesize "Hello" synthEnvOk).2.inlineAttempted = true ∧
      (clientNoBucket.synthesize "Hello" synthEnvOk).2.uploadAttempted = false) ∧
    (∀ bucket, clientNoBucket.s3Bucket = some bucket →
      (clientNoBucket.synthesize "Hello" synthEnvOk).2.uploadAttempted = true ∧
      (clientNoBucket.synthesize "Hello" synthEnvOk).2.inlineAttempted = false ∧
      (clientNoBucket.synthesize "Hello" synthEnvOk).1 =
        clientNoBucket.uploadToS3 bucket synthEnvOk ∧
      (synthEnvOk.uploadOk = false →
        (clientNoBucket.synthesize "Hello" synthEnvOk).1 =
          .error (.exc ("Failed to upload audio to S3: " ++ synthEnvOk.uploadErrMsg))))) :=
  ⟨by decide, by decide, by decide, by decide, by decide,
   upload_failure_fails_tier clientNoBucket "Hello" synthEnvOk [1, 2, 3]
     (by decide) (by decide) (by decide) (by decide) (by decide)⟩

/-- C6: inlining succeeds exactly when the payload is at most 100000 bytes;
on success the result is the `data:audio/mpeg;base64` URI of the payload
and the base64 text decodes back to exactly the original bytes, and above
the threshold the call fails with the too-large error. -/
theorem createDataUri_threshold_roundtrip (data : List Nat)
    (h : ∀ b ∈ data, b < 256) :
    (data.length ≤ 100000 →
      EdgeTTSClient.createDataUri data =
        .ok ("data:audio/mpeg;base64," ++ b64encode data) ∧
      b64decode (b64encode data) = some data) ∧
    (data.length > 100000 →
      EdgeTTSClient.createDataUri data =
        .error (.exc "Audio file too large for data URI. Please configure S3 bucket.")) := by
  constructor
  · intro hle
    refine ⟨?_, b64decode_b64encode data h⟩
    unfold EdgeTTSClient.createDataUri
    rw [if_neg (by omega)]
  · intro hgt
    unfold EdgeTTSClient.createDataUri
    rw [if_pos hgt]

/-- Witness for C6 at a concrete two-byte payload. -/
theorem createDataUri_threshold_roundtrip_witness :
    (∀ b ∈ ([72, 105] : List Nat), b < 256) ∧
    ((([72, 105] : List Nat).length ≤ 100000 →
      EdgeTTSClient.createDataUri [72, 105] =
        .ok ("data:audio/mpeg;base64," ++ b64encode [72, 105]) ∧
      b64decode (b64encode [72, 105]) = some [72, 105]) ∧
    (([72, 105] : List Nat).length > 100000 →
      EdgeTTSClient.createDataUri [72, 105] =
        .error (.exc "Audio file too large for data URI. Please configure S3 bucket."))) :=
  ⟨by decide, createDataUri_threshold_roundtrip [72, 105] (by decide)⟩

/-- C7: on every exit path of a synthesis call — success, engine failure,
timeout, or the early empty-text return — no transient scratch file remains
once the call returns or fails, both at the level of the outer call and of
the coroutine that owns the file. -/
theorem synthesis_scratch_always_removed (c : EdgeTTSClient) (text : String)
    (env : SynthEnv) :
    (c.synthesize text env).2.scratchLeft = false ∧
    (c.synthesizeAsync text env).scratchLeft = false := by
  refine ⟨?_, synthesizeAsync_scratchLeft c text env⟩
  simp only [EdgeTTSClient.synthesize]
  split
  · rfl
  · split
    · exact synthesizeAsync_scratchLeft c text env
    · split
      · exact synthesizeAsync_scratchLeft c text env
      · split
        · exact synthesizeAsync_scratchLeft c text env
        · split
          · exact synthesizeAsync_scratchLeft c text env
          · exact synthesizeAsync_scratchLeft c text env

/-- C9: for every string that is empty or consists only of whitespace, the
client rejects the text with `ValueError("Text cannot be empty")` before
starting the engine, creating any scratch file, or contacting object
storage. -/
theorem empty_text_rejected_at_boundary (c : EdgeTTSClient) (text : String)
    (env : SynthEnv) (h : text.data.all pyIsSpace = true) :
    c.synthesize text env =
      (.error (.valueError "Text cannot be empty"),
       { engineCalled := false, scratchLeft := false,
         uploadAttempted := false, inlineAttempted := false }) := by
  unfold EdgeTTSClient.synthesize
  rw [if_pos (Or.inr (all_space_pyStrip text h))]

/-- Witness for C9 at a concrete whitespace-only text. -/
theorem empty_text_rejected_at_boundary_witness :
    (" \t ").data.all pyIsSpace = true ∧
    clientWithBucket.synthesize " \t " synthEnvOk =
      (.error (.valueError "Text cannot be empty"),
       { engineCalled := false, scratchLeft := false,
         uploadAttempted := false, inlineAttempted := false }) :=
  ⟨by decide,
   empty_text_rejected_at_boundary clientWithBucket " \t " synthEnvOk (by decide)⟩

end Alexa
